import Mathlib

/-!
Shallow embedding of `src/onboard.py` (employee-onboarding orchestrator over
four SaaS providers) and proofs about the claims of its specification.

Modelling conventions:
* Each provider function takes the employee record, its configuration block,
  and an *environment* describing the outcomes of its external calls
  (HTTP requests, credential loading, JSON decoding).  It returns the
  Python-level outcome `Except PyExn Bool` (`.error e` = the function raised
  exception `e` uncaught; `.ok b` = the function returned `b`), the log
  entries it emitted, and the HTTP requests it issued, in order.
* An external HTTP call (`requests.get/post` followed by
  `response.raise_for_status()`) either raises an exception (network error,
  or `HTTPError` — a `RequestException` — for a non-2xx status) or yields a
  response; a successful transport outcome corresponds to a 2xx response.
  Where the code calls `response.json()`, the response carries the outcome
  of JSON decoding (`Except String body`, `.error` = `json.JSONDecodeError`).
* Python `except Cls:` handlers are modelled by matching on the kind of the
  raised `PyExn`; `except Exception` catches every kind.
* f-strings are rendered exactly; Python prints `None` for an absent value.
-/

namespace Onboard

/-- Kinds of Python exception relevant to the `try`/`except` clauses of
`onboard.py`: `requests.exceptions.RequestException` (including `HTTPError`
raised by `raise_for_status` on a non-2xx status), `json.JSONDecodeError`,
`NameError`, and any other exception class.  The payload is the string the
exception prints as in an f-string. -/
inductive PyExn
  | requestException (msg : String)
  | jsonDecodeError (msg : String)
  | nameError (msg : String)
  | otherExn (msg : String)
  deriving DecidableEq

/-- The string an exception renders as inside an f-string (`f"...{e}"`). -/
def pyStr : PyExn → String
  | .requestException m | .jsonDecodeError m | .nameError m | .otherExn m => m

/-- Logging levels used by `onboard.py` (`logging.info/warning/error`). -/
inductive LogLevel
  | info
  | warning
  | error
  deriving DecidableEq

/-- One emitted log record: level and fully rendered message. -/
structure LogEntry where
  level : LogLevel
  msg : String
  deriving DecidableEq

/-- The `new_employee_data` dictionary: `email`, `first_name`, `last_name`
are required (every provider reads them with `user_data['...']`), while
`org_unit` and `password` are read with `user_data.get(...)` and may be
absent (`none`). -/
structure EmployeeRecord where
  email : String
  first_name : String
  last_name : String
  org_unit : Option String
  password : Option String
  deriving DecidableEq

/-- Python truthiness of an optional string (`if config.get('key'):`):
absent and empty strings are falsy. -/
def truthy : Option String → Bool
  | none => false
  | some s => !s.isEmpty

/-- Rendering of an optional string in an f-string: Python prints `None`
for an absent value. -/
def optStr : Option String → String
  | none => "None"
  | some s => s

/-- Whether an `Except` value is a normal result. -/
def exceptOk {α : Type} : Except PyExn α → Bool
  | .ok _ => true
  | .error _ => false

instance {ε α : Type} [DecidableEq ε] [DecidableEq α] : DecidableEq (Except ε α) := fun a b =>
  match a, b with
  | .ok x, .ok y => decidable_of_iff (x = y) (by simp)
  | .error x, .error y => decidable_of_iff (x = y) (by simp)
  | .ok _, .error _ => .isFalse (by simp)
  | .error _, .ok _ => .isFalse (by simp)

/-- Outcome of one HTTP call whose response body the code decodes with
`response.json()`: either the call (or `raise_for_status`) raised, or a
2xx response arrived whose JSON decoding yields `β` or fails. -/
inductive HttpOutcome (β : Type)
  | exn (e : PyExn)
  | resp (body : Except String β)

/-! ## GOOGLE_WORKSPACE_CONFIG and onboard_google_workspace (lines 7-14, 35-68) -/

/-- `GOOGLE_WORKSPACE_CONFIG` fields used by `onboard_google_workspace`
(the `admin_scopes` list only feeds credential construction, which the
environment models wholesale). -/
structure GoogleConfig where
  domain : String
  service_account_file : String
  default_org_unit : String
  onboarding_group_email : String
  deriving DecidableEq

/-- The `user_body` dictionary sent to `directory_service.users().insert`. -/
structure UserBody where
  primaryEmail : String
  givenName : String
  familyName : String
  password : String
  orgUnitPath : String
  changePasswordAtNextLogin : Bool
  deriving DecidableEq

/-- The `group_member_body` dictionary sent to `groups().insert`. -/
structure GroupMemberBody where
  email : String
  role : String
  deriving DecidableEq

/-- Requests issued to the directory API. -/
inductive GRequest
  | insertUser (domain : String) (body : UserBody)
  | insertGroupMember (groupKey : String) (body : GroupMemberBody)
  deriving DecidableEq

/-- External outcomes for `onboard_google_workspace`: `credsOutcome` is the
exception (if any) raised by `Credentials.from_service_account_file` /
`build(...)` — note these run *before* the `try` block; `insertUser` is the
outcome of `users().insert(...).execute()` (`.ok s` carries the response's
`primaryEmail` field, logged on success); `insertMember` is the exception
(if any) of `groups().insert(...).execute()`. -/
structure GoogleEnv where
  credsOutcome : Option PyExn
  insertUser : Except PyExn String
  insertMember : Option PyExn

/-- Result of one call of `onboard_google_workspace`. -/
structure GoogleRun where
  result : Except PyExn Bool
  logs : List LogEntry
  requests : List GRequest
  deriving DecidableEq

/-- `onboard_google_workspace(user_data, config)`, lines 35-68.  Credential
loading and service construction (lines 40-42) happen before the `try`
block, so an exception there propagates out of the function.  Inside the
`try`, `except Exception as e` catches every exception, logs an error and
returns `False`. -/
def onboard_google_workspace (user_data : EmployeeRecord) (config : GoogleConfig)
    (env : GoogleEnv) : GoogleRun :=
  match env.credsOutcome with
  | some e => { result := .error e, logs := [], requests := [] }
  | none =>
    let email := user_data.email
    let password := user_data.password.getD "DefaultWelcome1!"
    let org_unit := user_data.org_unit.getD config.default_org_unit
    let user_body : UserBody :=
      { primaryEmail := email, givenName := user_data.first_name,
        familyName := user_data.last_name, password := password,
        orgUnitPath := org_unit, changePasswordAtNextLogin := true }
    let createReq := GRequest.insertUser config.domain user_body
    match env.insertUser with
    | .error e =>
      { result := .ok false,
        logs := [⟨.error, s!"Error during Google Workspace onboarding for {email}: {pyStr e}"⟩],
        requests := [createReq] }
    | .ok newUserPrimaryEmail =>
      let group_member_body : GroupMemberBody := { email := email, role := "MEMBER" }
      let groupReq := GRequest.insertGroupMember config.onboarding_group_email group_member_body
      match env.insertMember with
      | some e =>
        { result := .ok false,
          logs := [⟨.info, s!"Google Workspace user created: {newUserPrimaryEmail}"⟩,
                   ⟨.error, s!"Error during Google Workspace onboarding for {email}: {pyStr e}"⟩],
          requests := [createReq, groupReq] }
      | none =>
        { result := .ok true,
          logs := [⟨.info, s!"Google Workspace user created: {newUserPrimaryEmail}"⟩,
                   ⟨.info, s!"User {email} added to group {config.onboarding_group_email}"⟩],
          requests := [createReq, groupReq] }

/-! ## ZOOM_CONFIG and onboard_zoom (lines 16-20, 70-117) -/

/-- `ZOOM_CONFIG`: the key/secret come from `os.environ.get` (possibly
absent); `default_group_id` is read with `config.get` and its truthiness
gates the group-add request. -/
structure ZoomConfig where
  api_key : Option String
  api_secret : Option String
  default_group_id : Option String
  deriving DecidableEq

/-- One entry of the users list of the Zoom response; `user.get('email')`
may be absent. -/
structure ZoomUser where
  email : Option String
  deriving DecidableEq

/-- Decoded JSON of the Zoom user-list response; `zoom_users_data.get('users', [])`. -/
structure ZoomUsersData where
  users : List ZoomUser
  deriving DecidableEq

/-- Requests issued to the Zoom API. -/
inductive ZRequest
  | listUsers (params : List (String × String))
  | addGroupMembers (groupId : String) (emails : List String)
  deriving DecidableEq

/-- External outcomes for `onboard_zoom`: the user-list GET (whose body is
decoded with `response.json()`) and the group-add POST. -/
structure ZoomEnv where
  listUsers : HttpOutcome ZoomUsersData
  groupAdd : Option PyExn

/-- Result of one call of `onboard_zoom`. -/
structure ZoomRun where
  result : Except PyExn Bool
  logs : List LogEntry
  requests : List ZRequest
  deriving DecidableEq

/-- `generate_jwt(api_key, api_secret)`, lines 80-87.  Building the payload
evaluates `datetime.utcnow() + timedelta(seconds=30)`, but `timedelta` is
never imported (only `datetime` is, line 4), so the reference raises
`NameError` before `jwt.encode` is ever reached.  The function therefore
raises on every call. -/
def generate_jwt (api_key api_secret : Option String) : Except PyExn String :=
  .error (.nameError "name 'timedelta' is not defined")

/-- The body of `onboard_zoom` from line 90 on, given a JWT token: list
active users (`status=active`, `page_size=100`, a single page), check
membership of the employee's email in that one response, optionally add to
the configured group; `except Exception` catches everything inside the
`try` (lines 97-117), logs an error and returns `False`. -/
def zoomAfterJwt (jwt_token : String) (user_data : EmployeeRecord) (config : ZoomConfig)
    (env : ZoomEnv) : ZoomRun :=
  let email := user_data.email
  let listReq := ZRequest.listUsers [("status", "active"), ("page_size", "100")]
  match env.listUsers with
  | .exn e =>
    { result := .ok false,
      logs := [⟨.error, s!"Error interacting with Zoom API for {email}: {pyStr e}"⟩],
      requests := [listReq] }
  | .resp (.error m) =>
    { result := .ok false,
      logs := [⟨.error, s!"Error interacting with Zoom API for {email}: {m}"⟩],
      requests := [listReq] }
  | .resp (.ok zoom_users_data) =>
    let user_exists := zoom_users_data.users.any (fun u => u.email == some email)
    if user_exists then
      if truthy config.default_group_id then
        let gid := optStr config.default_group_id
        let addReq := ZRequest.addGroupMembers gid [email]
        match env.groupAdd with
        | some e =>
          { result := .ok false,
            logs := [⟨.info, s!"Zoom user {email} already exists."⟩,
                     ⟨.error, s!"Error interacting with Zoom API for {email}: {pyStr e}"⟩],
            requests := [listReq, addReq] }
        | none =>
          { result := .ok true,
            logs := [⟨.info, s!"Zoom user {email} already exists."⟩,
                     ⟨.info, s!"User {email} added to Zoom group {gid}"⟩],
            requests := [listReq, addReq] }
      else
        { result := .ok true,
          logs := [⟨.info, s!"Zoom user {email} already exists."⟩],
          requests := [listReq] }
    else
      { result := .ok true,
        logs := [⟨.warning, s!"Zoom user {email} not found. Account creation might be manual or via SSO."⟩],
        requests := [listReq] }

/-- `onboard_zoom(user_data, config)`, lines 70-117.  The call
`jwt_token = generate_jwt(api_key, api_secret)` (line 89) happens *before*
the `try` block (line 97), so the `NameError` raised inside `generate_jwt`
propagates out of `onboard_zoom` uncaught, before any HTTP request or log
statement. -/
def onboard_zoom (user_data : EmployeeRecord) (config : ZoomConfig) (env : ZoomEnv) : ZoomRun :=
  match generate_jwt config.api_key config.api_secret with
  | .error e => { result := .error e, logs := [], requests := [] }
  | .ok jwt_token => zoomAfterJwt jwt_token user_data config env

/-! ## DROPBOX_CONFIG and onboard_dropbox (lines 22-25, 119-148) -/

/-- `DROPBOX_CONFIG`. -/
structure DropboxConfig where
  access_token : Option String
  onboarding_folder_path : String
  deriving DecidableEq

/-- The `add_folder_member` request: shared path, member email (tagged
`email`), access level. -/
inductive DRequest
  | addFolderMember (share_path : String) (memberEmail : String) (access_level : String)
  deriving DecidableEq

/-- External outcome for `onboard_dropbox`: the exception (if any) raised by
`requests.post` / `raise_for_status`.  Note the function never calls
`response.json()`, so no response body is ever decoded; a
`json.JSONDecodeError` can only reach the handler if the call itself
raises one. -/
structure DropboxEnv where
  post : Option PyExn

/-- Result of one call of `onboard_dropbox`. -/
structure DropboxRun where
  result : Except PyExn Bool
  logs : List LogEntry
  requests : List DRequest
  deriving DecidableEq

/-- `onboard_dropbox(user_data, config)`, lines 119-148.  Two handlers:
`except requests.exceptions.RequestException as e` logs and returns
`False`; `except json.JSONDecodeError:` (line 146) does *not* bind the
exception, yet its log f-string reads `{e}` — an unbound name — so that
handler itself raises `NameError`, which propagates.  Other exception
kinds match neither handler and propagate. -/
def onboard_dropbox (user_data : EmployeeRecord) (config : DropboxConfig)
    (env : DropboxEnv) : DropboxRun :=
  let email := user_data.email
  let folder_path := config.onboarding_folder_path
  let req := DRequest.addFolderMember folder_path email "viewer"
  match env.post with
  | none =>
    { result := .ok true,
      logs := [⟨.info, s!"Invited {email} to Dropbox folder: {folder_path}"⟩],
      requests := [req] }
  | some (.requestException m) =>
    { result := .ok false,
      logs := [⟨.error, s!"Error inviting {email} to Dropbox folder: {m}"⟩],
      requests := [req] }
  | some (.jsonDecodeError _) =>
    { result := .error (.nameError "name 'e' is not defined"),
      logs := [],
      requests := [req] }
  | some e =>
    { result := .error e, logs := [], requests := [req] }

/-! ## SLACK_CONFIG and welcome_slack_user (lines 27-30, 150-188) -/

/-- `SLACK_CONFIG`. -/
structure SlackConfig where
  bot_token : Option String
  welcome_channel : String
  deriving DecidableEq

/-- Decoded JSON of the Slack response: `response_data.get("ok")` (the
acknowledgment field, possibly absent) and `response_data.get('error')`. -/
structure SlackBody where
  ok : Option Bool
  error : Option String
  deriving DecidableEq

/-- The `chat.postMessage` request: channel and message text. -/
inductive SRequest
  | postMessage (channel : String) (text : String)
  deriving DecidableEq

/-- External outcome for `welcome_slack_user`: the POST whose body is
decoded with `response.json()`. -/
structure SlackEnv where
  post : HttpOutcome SlackBody

/-- Result of one call of `welcome_slack_user`. -/
structure SlackRun where
  result : Except PyExn Bool
  logs : List LogEntry
  requests : List SRequest
  deriving DecidableEq

/-- `welcome_slack_user(user_data, config)`, lines 150-188.  Returns `True`
only on a successful transport (2xx) with a decoded body whose `"ok"` field
is truthy; a falsy/absent `"ok"` logs the body's error code and returns
`False`.  As in `onboard_dropbox`, the `except json.JSONDecodeError:`
handler (line 186) reads the unbound name `e` and so raises `NameError`
itself. -/
def welcome_slack_user (user_data : EmployeeRecord) (config : SlackConfig)
    (env : SlackEnv) : SlackRun :=
  let email := user_data.email
  let channel_name := config.welcome_channel
  let welcome_message :=
    s!"Welcome to the team, <mailto:{email}|{user_data.first_name} {user_data.last_name}>! Please introduce yourself in this channel."
  let req := SRequest.postMessage channel_name welcome_message
  match env.post with
  | .exn (.requestException m) =>
    { result := .ok false,
      logs := [⟨.error, s!"Error sending message to Slack for {email}: {m}"⟩],
      requests := [req] }
  | .exn (.jsonDecodeError _) =>
    { result := .error (.nameError "name 'e' is not defined"),
      logs := [],
      requests := [req] }
  | .exn e =>
    { result := .error e, logs := [], requests := [req] }
  | .resp (.error _) =>
    { result := .error (.nameError "name 'e' is not defined"),
      logs := [],
      requests := [req] }
  | .resp (.ok response_data) =>
    if response_data.ok == some true then
      { result := .ok true,
        logs := [⟨.info, s!"Welcome message sent to {channel_name} for {email}"⟩],
        requests := [req] }
    else
      { result := .ok false,
        logs := [⟨.error, s!"Failed to send welcome message to Slack for {email}: {optStr response_data.error}"⟩],
        requests := [req] }

/-! ## The orchestrator: the `__main__` block, lines 190-208 -/

/-- The four providers, in the orchestrator's invocation order. -/
inductive Provider
  | google
  | zoom
  | dropbox
  | slack
  deriving DecidableEq

/-- All external outcomes of one run. -/
structure Env where
  google : GoogleEnv
  zoom : ZoomEnv
  dropbox : DropboxEnv
  slack : SlackEnv

/-- Result of one orchestrator run: `.ok ()` means the process reached the
end of the `__main__` block normally; `.error e` means an uncaught
exception `e` aborted it.  `calls` lists the providers actually invoked,
in order. -/
structure OrchRun where
  result : Except PyExn Unit
  logs : List LogEntry
  calls : List Provider
  deriving DecidableEq

/-- The `__main__` block (lines 190-208), parametrised by the employee
record and the four config blocks: log the start line, call the four
providers in the fixed order google → zoom → dropbox → slack with the same
record, then log exactly one aggregate line (`info` if all four returned
`True`, else `warning`).  An exception escaping a provider call aborts the
process there: later providers are not invoked and no aggregate line is
logged. -/
def orchestrate (new_employee_data : EmployeeRecord) (gcfg : GoogleConfig)
    (zcfg : ZoomConfig) (dcfg : DropboxConfig) (scfg : SlackConfig) (env : Env) : OrchRun :=
  let email := new_employee_data.email
  let startLog : LogEntry := ⟨.info, s!"Starting onboarding process for {email}"⟩
  let rg := onboard_google_workspace new_employee_data gcfg env.google
  match rg.result with
  | .error e => { result := .error e, logs := [startLog] ++ rg.logs, calls := [.google] }
  | .ok gworkspace_success =>
    let rz := onboard_zoom new_employee_data zcfg env.zoom
    match rz.result with
    | .error e =>
      { result := .error e, logs := [startLog] ++ rg.logs ++ rz.logs, calls := [.google, .zoom] }
    | .ok zoom_success =>
      let rd := onboard_dropbox new_employee_data dcfg env.dropbox
      match rd.result with
      | .error e =>
        { result := .error e, logs := [startLog] ++ rg.logs ++ rz.logs ++ rd.logs,
          calls := [.google, .zoom, .dropbox] }
      | .ok dropbox_success =>
        let rs := welcome_slack_user new_employee_data scfg env.slack
        match rs.result with
        | .error e =>
          { result := .error e,
            logs := [startLog] ++ rg.logs ++ rz.logs ++ rd.logs ++ rs.logs,
            calls := [.google, .zoom, .dropbox, .slack] }
        | .ok slack_success =>
          let finalLog : LogEntry :=
            if gworkspace_success && zoom_success && dropbox_success && slack_success then
              ⟨.info, s!"Onboarding process completed successfully for {email}"⟩
            else
              ⟨.warning, s!"Onboarding process completed for {email} with some potential failures. Check logs for details."⟩
          { result := .ok (),
            logs := [startLog] ++ rg.logs ++ rz.logs ++ rd.logs ++ rs.logs ++ [finalLog],
            calls := [.google, .zoom, .dropbox, .slack] }

/-! ## Concrete fixtures used by the closed theorems -/

/-- The hard-coded `new_employee_data` of the `__main__` block (lines 191-196). -/
def jdoe : EmployeeRecord :=
  { email := "newhire123@yourcorpdomain.com", first_name := "John", last_name := "Doe",
    org_unit := some "/Users/New Employees", password := none }

/-- A concrete `GOOGLE_WORKSPACE_CONFIG` (lines 7-14). -/
def gcfg0 : GoogleConfig :=
  { domain := "yourcorpdomain.com",
    service_account_file := "/path/to/your/gworkspace_service_account_key.json",
    default_org_unit := "/Users",
    onboarding_group_email := "all-employees@yourcorpdomain.com" }

/-- A concrete `ZOOM_CONFIG` (lines 16-20) with both credentials set. -/
def zcfg0 : ZoomConfig :=
  { api_key := some "zoom-key", api_secret := some "zoom-secret",
    default_group_id := some "YOUR_CORP_ZOOM_GROUP_ID" }

/-- A concrete `DROPBOX_CONFIG` (lines 22-25). -/
def dcfg0 : DropboxConfig :=
  { access_token := some "dropbox-token",
    onboarding_folder_path := "/Company Shared/New Starters" }

/-- A concrete `SLACK_CONFIG` (lines 27-30). -/
def scfg0 : SlackConfig :=
  { bot_token := some "slack-bot-token", welcome_channel := "#general-announcements" }

/-- An environment in which every external call succeeds: credentials load,
both directory requests succeed, the Zoom listing would return an empty
active-user page, the Dropbox POST succeeds and Slack acknowledges. -/
def envOk : Env :=
  { google := { credsOutcome := none, insertUser := .ok "newhire123@yourcorpdomain.com",
                insertMember := none },
    zoom := { listUsers := .resp (.ok { users := [] }), groupAdd := none },
    dropbox := { post := none },
    slack := { post := .resp (.ok { ok := some true, error := none }) } }

/-- Environment in which the Google `users().insert` call raises (a 409
duplicate-account conflict, say): `onboard_google_workspace` catches it and
returns `False`, and the orchestrator goes on to the Zoom call. -/
def envGFail : Env :=
  { envOk with
    google := { credsOutcome := none,
                insertUser := .error (.requestException "409 duplicate"),
                insertMember := none } }

/-- A Zoom environment whose (would-be) active-user page does not contain
the hard-coded employee's email. -/
def zenvAbsent : ZoomEnv :=
  { listUsers := .resp (.ok { users := [{ email := some "other.person@yourcorpdomain.com" }] }),
    groupAdd := none }

/-- A Zoom environment whose (would-be) single page of active users holds
two other accounts — modelling an employee whose account exists but is not
among the returned page. -/
def zenvTwoUsers : ZoomEnv :=
  { listUsers := .resp (.ok { users := [{ email := some "a1@yourcorpdomain.com" },
                                        { email := some "a2@yourcorpdomain.com" }] }),
    groupAdd := none }

/-! ## Theorems for the claims -/

/-- C1, counterexample: even in an environment in which every external call
succeeds, the run aborts with the uncaught `NameError` from `onboard_zoom`
(raised before its `try` block), and only two of the four providers are
ever called — so it is false that every error raised during a provider
call is caught inside the provider and that the orchestrator always
completes all four calls and exits normally. -/
theorem zoom_error_is_fatal_to_orchestrator :
    (orchestrate jdoe gcfg0 zcfg0 dcfg0 scfg0 envOk).result
      = .error (.nameError "name 'timedelta' is not defined")
    ∧ (orchestrate jdoe gcfg0 zcfg0 dcfg0 scfg0 envOk).calls = [Provider.google, Provider.zoom] :=
  ⟨rfl, rfl⟩

/-- C1, amended: Google and Zoom catch *every* exception raised inside
their `try` blocks (`except Exception`), logging it and returning `False`;
Dropbox and Slack catch only `RequestException` that way — their
`json.JSONDecodeError` handler itself raises `NameError` on the unbound
name `e` without logging, and exceptions matching neither handler
propagate.  The code before each `try` block is unprotected, and Zoom's
JWT construction there always raises `NameError` for the unbound
`timedelta`, so that error is fatal: the orchestrator never completes all
four provider calls and never exits normally. -/
theorem provider_catch_scopes_and_fatal_zoom_setup (u : EmployeeRecord)
    (gcfg : GoogleConfig) (zcfg : ZoomConfig) (dcfg : DropboxConfig) (scfg : SlackConfig)
    (e : PyExn) (e2 : Option PyExn) (ga : Option PyExn) (r jwt m : String)
    (zenv : ZoomEnv) (env : Env) :
    (onboard_google_workspace u gcfg ⟨none, .error e, e2⟩).result = .ok false
    ∧ (onboard_google_workspace u gcfg ⟨none, .error e, e2⟩).logs
        = [⟨.error, s!"Error during Google Workspace onboarding for {u.email}: {pyStr e}"⟩]
    ∧ (onboard_google_workspace u gcfg ⟨none, .ok r, some e⟩).result = .ok false
    ∧ (zoomAfterJwt jwt u zcfg ⟨.exn e, ga⟩).result = .ok false
    ∧ (zoomAfterJwt jwt u zcfg ⟨.exn e, ga⟩).logs
        = [⟨.error, s!"Error interacting with Zoom API for {u.email}: {pyStr e}"⟩]
    ∧ (onboard_dropbox u dcfg ⟨some (.requestException m)⟩).result = .ok false
    ∧ (onboard_dropbox u dcfg ⟨some (.jsonDecodeError m)⟩).result
        = .error (.nameError "name 'e' is not defined")
    ∧ (onboard_dropbox u dcfg ⟨some (.nameError m)⟩).result = .error (.nameError m)
    ∧ (onboard_dropbox u dcfg ⟨some (.otherExn m)⟩).result = .error (.otherExn m)
    ∧ (welcome_slack_user u scfg ⟨.exn (.requestException m)⟩).result = .ok false
    ∧ (welcome_slack_user u scfg ⟨.exn (.jsonDecodeError m)⟩).result
        = .error (.nameError "name 'e' is not defined")
    ∧ (welcome_slack_user u scfg ⟨.exn (.nameError m)⟩).result = .error (.nameError m)
    ∧ (welcome_slack_user u scfg ⟨.exn (.otherExn m)⟩).result = .error (.otherExn m)
    ∧ (onboard_zoom u zcfg zenv).result = .error (.nameError "name 'timedelta' is not defined")
    ∧ Provider.dropbox ∉ (orchestrate u gcfg zcfg dcfg scfg env).calls
    ∧ (orchestrate u gcfg zcfg dcfg scfg env).result ≠ .ok () := by
  refine ⟨rfl, rfl, rfl, rfl, rfl, rfl, rfl, rfl, rfl, rfl, rfl, rfl, rfl, rfl, ?_, ?_⟩ <;>
  · cases hg : (onboard_google_workspace u gcfg env.google).result <;>
      simp [orchestrate, hg, onboard_zoom, generate_jwt]

/-- C2: in an all-success environment the run never reaches the aggregation
at lines 205-208 — it aborts inside `onboard_zoom` — so no aggregate line
(neither the success `info` line nor the `warning` line) is ever logged,
contrary to the claim that one of them is always logged exactly once. -/
theorem aggregate_line_never_logged :
    (orchestrate jdoe gcfg0 zcfg0 dcfg0 scfg0 envOk).result
      = .error (.nameError "name 'timedelta' is not defined")
    ∧ ((orchestrate jdoe gcfg0 zcfg0 dcfg0 scfg0 envOk).logs.filter
        (fun l => l.level == LogLevel.warning)) = []
    ∧ (⟨LogLevel.info,
        "Onboarding process completed successfully for newhire123@yourcorpdomain.com"⟩ : LogEntry)
      ∉ (orchestrate jdoe gcfg0 zcfg0 dcfg0 scfg0 envOk).logs := by
  refine ⟨rfl, rfl, ?_⟩
  decide

/-- C3: the Zoom call raises, so dropbox and slack are never invoked — this
holds even when the directory provider merely *returns* `False` (its
create-user call failing inside the `try`), confirming that a `False`
return alone does not stop the sequence, while the uncaught Zoom exception
does. -/
theorem later_providers_not_invoked :
    (orchestrate jdoe gcfg0 zcfg0 dcfg0 scfg0 envOk).calls = [Provider.google, Provider.zoom]
    ∧ (orchestrate jdoe gcfg0 zcfg0 dcfg0 scfg0 envGFail).calls
        = [Provider.google, Provider.zoom] :=
  ⟨rfl, rfl⟩

/-- C4 (confirmed): every call of `onboard_zoom`, on any record,
configuration and environment, raises the `NameError` for the unbound name
`timedelta` while constructing the JWT expiry, before issuing any request
or logging anything — it never completes normally. -/
theorem zoom_always_raises_unbound_timedelta (u : EmployeeRecord) (cfg : ZoomConfig)
    (env : ZoomEnv) :
    (onboard_zoom u cfg env).result = .error (.nameError "name 'timedelta' is not defined")
    ∧ (onboard_zoom u cfg env).requests = []
    ∧ (onboard_zoom u cfg env).logs = [] :=
  ⟨rfl, rfl, rfl⟩

/-- C5, counterexample: if a `json.JSONDecodeError` reaches the `try` block
of `onboard_dropbox`, the dedicated handler does not log the distinct
decode message and return `False`: its f-string reads the unbound name `e`
and the function raises `NameError` instead, logging nothing. -/
theorem dropbox_decode_failure_raises_not_false :
    (onboard_dropbox jdoe dcfg0
        ⟨some (.jsonDecodeError "Expecting value: line 1 column 1 (char 0)")⟩).result
      = .error (.nameError "name 'e' is not defined")
    ∧ (onboard_dropbox jdoe dcfg0
        ⟨some (.jsonDecodeError "Expecting value: line 1 column 1 (char 0)")⟩).logs = [] :=
  ⟨rfl, rfl⟩

/-- C5, amended: `onboard_dropbox` logs an HTTP-level failure under its own
message and returns `False`, and it has a separate `except` branch for
response-body decode failures — but the function never parses a response
body, and that branch's log statement reads an unbound name, so a decode
failure raises `NameError` (logging nothing) instead of being logged under
a distinct message and returning `False`; on success it returns `True`. -/
theorem dropbox_error_paths (u : EmployeeRecord) (cfg : DropboxConfig) (m : String) :
    (onboard_dropbox u cfg ⟨some (.requestException m)⟩).result = .ok false
    ∧ (onboard_dropbox u cfg ⟨some (.requestException m)⟩).logs
        = [⟨.error, s!"Error inviting {u.email} to Dropbox folder: {m}"⟩]
    ∧ (onboard_dropbox u cfg ⟨some (.jsonDecodeError m)⟩).result
        = .error (.nameError "name 'e' is not defined")
    ∧ (onboard_dropbox u cfg ⟨some (.jsonDecodeError m)⟩).logs = []
    ∧ (onboard_dropbox u cfg ⟨none⟩).result = .ok true :=
  ⟨rfl, rfl, rfl, rfl, rfl⟩

/-- C6 (confirmed): `welcome_slack_user` returns `True` exactly when the
transport succeeds (a 2xx response) and the decoded body's `"ok"` field is
`true`; in particular, on a 200 response with body
`{"ok": false, "error": "channel_not_found"}` it returns `False` and logs
the error code taken from the body. -/
theorem slack_ack_required (u : EmployeeRecord) (cfg : SlackConfig) (env : SlackEnv) :
    ((welcome_slack_user u cfg env).result = .ok true ↔
      ∃ b : SlackBody, env.post = .resp (.ok b) ∧ b.ok = some true)
    ∧ (welcome_slack_user jdoe scfg0
        ⟨.resp (.ok { ok := some false, error := some "channel_not_found" })⟩).result = .ok false
    ∧ (welcome_slack_user jdoe scfg0
        ⟨.resp (.ok { ok := some false, error := some "channel_not_found" })⟩).logs
      = [⟨.error,
          "Failed to send welcome message to Slack for newhire123@yourcorpdomain.com: channel_not_found"⟩] := by
  refine ⟨?_, rfl, rfl⟩
  obtain ⟨p⟩ := env
  cases p with
  | exn e => cases e <;> simp [welcome_slack_user]
  | resp b =>
    cases b with
    | error m => simp [welcome_slack_user]
    | ok body =>
      by_cases h : body.ok = some true
      · simp [welcome_slack_user, h]
      · simp [welcome_slack_user, h]

/-- C7: with the hard-coded employee and an active-user page not containing
their email, `onboard_zoom` does not log the not-found warning and return
`True` as claimed — it raises the unbound-`timedelta` `NameError` first,
issuing no request and logging nothing; the post-JWT body of the function
(never reached) would behave as claimed: warning, `True`, one list
request, no group-add request. -/
theorem zoom_absent_user_crashes_before_warning :
    (onboard_zoom jdoe zcfg0 zenvAbsent).result
      = .error (.nameError "name 'timedelta' is not defined")
    ∧ (onboard_zoom jdoe zcfg0 zenvAbsent).requests = []
    ∧ (onboard_zoom jdoe zcfg0 zenvAbsent).logs = []
    ∧ (zoomAfterJwt "token" jdoe zcfg0 zenvAbsent).result = .ok true
    ∧ (zoomAfterJwt "token" jdoe zcfg0 zenvAbsent).logs
        = [⟨.warning,
            "Zoom user newhire123@yourcorpdomain.com not found. Account creation might be manual or via SSO."⟩]
    ∧ (zoomAfterJwt "token" jdoe zcfg0 zenvAbsent).requests
        = [.listUsers [("status", "active"), ("page_size", "100")]] := by
  refine ⟨rfl, rfl, rfl, ?_, ?_, ?_⟩ <;> decide

/-- C8 (confirmed): on a successful run `onboard_google_workspace` issues
the create-user request (record's email, names, org unit and password,
with `changePasswordAtNextLogin` set) followed by the add-member request
for the configured default group, and in general it returns `True` exactly
when credential loading and both requests complete without error. -/
theorem google_two_requests_and_result (u : EmployeeRecord) (cfg : GoogleConfig)
    (resp : String) (env : GoogleEnv) :
    (onboard_google_workspace u cfg ⟨none, .ok resp, none⟩).requests
      = [.insertUser cfg.domain
           { primaryEmail := u.email, givenName := u.first_name, familyName := u.last_name,
             password := u.password.getD "DefaultWelcome1!",
             orgUnitPath := u.org_unit.getD cfg.default_org_unit,
             changePasswordAtNextLogin := true },
         .insertGroupMember cfg.onboarding_group_email { email := u.email, role := "MEMBER" }]
    ∧ (onboard_google_workspace u cfg ⟨none, .ok resp, none⟩).result = .ok true
    ∧ ((onboard_google_workspace u cfg env).result = .ok true ↔
        env.credsOutcome = none ∧ exceptOk env.insertUser = true ∧ env.insertMember = none) := by
  refine ⟨rfl, rfl, ?_⟩
  obtain ⟨c, iu, im⟩ := env
  cases c <;> cases iu <;> cases im <;> simp [onboard_google_workspace, exceptOk]

/-- C9 (confirmed): the create-user request of `onboard_google_workspace`
uses the placeholder password `DefaultWelcome1!` when the record omits
`password` and the config's default org unit when it omits `org_unit`, and
uses the record's own values when they are supplied. -/
theorem google_defaulting_rules (em fn ln p ou resp : String) (cfg : GoogleConfig) :
    (onboard_google_workspace ⟨em, fn, ln, none, none⟩ cfg ⟨none, .ok resp, none⟩).requests.head?
      = some (.insertUser cfg.domain ⟨em, fn, ln, "DefaultWelcome1!", cfg.default_org_unit, true⟩)
    ∧ (onboard_google_workspace ⟨em, fn, ln, some ou, some p⟩ cfg
        ⟨none, .ok resp, none⟩).requests.head?
      = some (.insertUser cfg.domain ⟨em, fn, ln, p, ou, true⟩) :=
  ⟨rfl, rfl⟩

/-- C10: no call of `onboard_zoom` ever issues the single-page
(`status=active`, `page_size=100`) user-list request the claim describes —
the function raises the unbound-`timedelta` `NameError` first; the
post-JWT body of the function (never reached) would issue exactly that one
request and, for an employee absent from the returned page, treat them as
not found and still return `True` with no group-add request. -/
theorem zoom_single_page_check_unreachable :
    (onboard_zoom jdoe zcfg0 zenvTwoUsers).requests = []
    ∧ (onboard_zoom jdoe zcfg0 zenvTwoUsers).result
        = .error (.nameError "name 'timedelta' is not defined")
    ∧ (zoomAfterJwt "token" jdoe zcfg0 zenvTwoUsers).requests
        = [.listUsers [("status", "active"), ("page_size", "100")]]
    ∧ (zoomAfterJwt "token" jdoe zcfg0 zenvTwoUsers).result = .ok true
    ∧ (zoomAfterJwt "token" jdoe zcfg0 zenvTwoUsers).logs
        = [⟨.warning,
            "Zoom user newhire123@yourcorpdomain.com not found. Account creation might be manual or via SSO."⟩] := by
  refine ⟨rfl, rfl, ?_, ?_, ?_⟩ <;> decide

end Onboard
